import Mathlib

/-!
Verification of the CLI_Reminder repository's reminder lifecycle, recurrence
engine, due scan and interactive editor, shallowly embedded from the Rust
sources (`src/remind_rs/src/reminder.rs`, `src/remindme/src/cli.rs`,
`src/remindme/src/notification.rs`, `src/remindme/src/tui.rs`,
`src/remindme/src/main.rs`, `src/remindme/src/storage.rs`).

Local timestamps (`chrono::DateTime<Local>`) are modelled as civil calendar
datetimes (year, month, day, hour, minute, second); instants are compared and
subtracted through `DateTime.toSecs`, the standard civil-days conversion,
ignoring timezone offsets and DST transitions (the programs only ever build
and compare local wall-clock times).  `chrono::Duration::days(n)` is modelled
as the n-fold calendar successor.  Rust panics and failed `unwrap()`s are
modelled as `Option.none`; `anyhow::Result` as `Except String`.
-/

/-- Civil calendar datetime, the model of `chrono::DateTime<Local>`. -/
structure DateTime where
  year : Int
  month : Nat
  day : Nat
  hour : Nat
  minute : Nat
  second : Nat
  deriving Repr, DecidableEq

/-- From `reminder.rs` `days_in_month` (lines 111-124): 31/30/28-or-29 table;
the `_ => panic!` arm is `Option.none`.  `Int`'s `%` agrees with Rust's `%`
on the `== 0` tests used here. -/
def days_in_month (month : Nat) (year : Int) : Option Nat :=
  match month with
  | 1 | 3 | 5 | 7 | 8 | 10 | 12 => some 31
  | 4 | 6 | 9 | 11 => some 30
  | 2 => some (if (year % 4 == 0 && year % 100 != 0) || year % 400 == 0 then 29 else 28)
  | _ => Option.none

/-- Validity of a civil datetime, the condition under which chrono's
`with_ymd_and_hms` / naive datetime parsing succeeds. -/
def validDate (y : Int) (m d hh mi s : Nat) : Prop :=
  1 ≤ m ∧ m ≤ 12 ∧ 1 ≤ d ∧ d ≤ (days_in_month m y).getD 0 ∧ hh < 24 ∧ mi < 60 ∧ s < 60

instance (y : Int) (m d hh mi s : Nat) : Decidable (validDate y m d hh mi s) := by
  unfold validDate; infer_instance

def DateTime.Valid (t : DateTime) : Prop :=
  validDate t.year t.month t.day t.hour t.minute t.second

instance (t : DateTime) : Decidable t.Valid := by
  unfold DateTime.Valid; infer_instance

/-- Model of `Local.with_ymd_and_hms(..)`: `some` exactly on valid civil
datetimes (`LocalResult::Single`), `Option.none` on invalid ones. -/
def with_ymd_and_hms (y : Int) (m d hh mi s : Nat) : Option DateTime :=
  if validDate y m d hh mi s then some ⟨y, m, d, hh, mi, s⟩ else Option.none

/-- Days since 1970-01-01 of a civil date (Gregorian, proleptic). -/
def daysFromCivil (y : Int) (m d : Nat) : Int :=
  let yAdj : Int := if m ≤ 2 then y - 1 else y
  let era : Int := yAdj / 400
  let yoe : Int := yAdj - era * 400
  let mp : Nat := (m + 9) % 12
  let doy : Int := (153 * (mp : Int) + 2) / 5 + (d : Int) - 1
  let doe : Int := yoe * 365 + yoe / 4 - yoe / 100 + doy
  era * 146097 + doe - 719468

/-- Seconds since the epoch of a civil datetime; instants are compared and
subtracted through this. -/
def DateTime.toSecs (t : DateTime) : Int :=
  daysFromCivil t.year t.month t.day * 86400
    + (t.hour : Int) * 3600 + (t.minute : Int) * 60 + (t.second : Int)

/-- Calendar successor of a datetime (same time of day), the model of
`chrono::Duration::days(1)` on a local datetime. -/
def nextDay (t : DateTime) : DateTime :=
  let dim := (days_in_month t.month t.year).getD 31
  if t.day < dim then { t with day := t.day + 1 }
  else if t.month < 12 then { t with month := t.month + 1, day := 1 }
  else { t with year := t.year + 1, month := 1, day := 1 }

/-- n-fold calendar successor, the model of `chrono::Duration::days(n)`. -/
def addDays (t : DateTime) : Nat → DateTime
  | 0 => t
  | n + 1 => nextDay (addDays t n)

/-- From `reminder.rs` lines 6-14. -/
inductive RecurrenceType where
  | none
  | daily
  | weekly
  | monthly
  | yearly
  | custom (s : String)
  deriving Repr, DecidableEq

/-- From `reminder.rs` lines 16-25. -/
structure Reminder where
  id : String
  text : String
  due_time : DateTime
  recurrence : RecurrenceType
  created_at : DateTime
  last_notified : Option DateTime
  completed : Bool
  deriving Repr, DecidableEq

/-- From `reminder.rs` `Reminder::new` (lines 28-38); the generated UUID and
the construction time `Local::now()` are explicit parameters. -/
def Reminder.new (id : String) (now : DateTime) (text : String)
    (due_time : DateTime) (recurrence : RecurrenceType) : Reminder :=
  { id := id, text := text, due_time := due_time, recurrence := recurrence
    created_at := now, last_notified := Option.none, completed := false }

/-- From `reminder.rs` `Reminder::is_due` (lines 40-51); `Local::now()` is the
explicit parameter `now`, and `(now - last).num_hours()` is the truncating
division of the second difference by 3600, as in chrono. -/
def Reminder.is_due (r : Reminder) (now : DateTime) : Bool :=
  decide (r.due_time.toSecs ≤ now.toSecs) && !r.completed &&
    (match r.last_notified with
     | Option.none => true
     | some last =>
       match r.recurrence with
       | RecurrenceType.none => false
       | _ => decide (24 ≤ (now.toSecs - last.toSecs).tdiv 3600))

/-- From `reminder.rs` `Reminder::mark_notified` (lines 53-94); `Local::now()`
is the parameter `now`, and the two `unwrap()`s (and the `panic!` inside
`days_in_month`) surface as `Option.none`. -/
def Reminder.mark_notified (r : Reminder) (now : DateTime) : Option Reminder :=
  let r := { r with last_notified := some now }
  match r.recurrence with
  | RecurrenceType.none => some { r with completed := true }
  | RecurrenceType.daily => some { r with due_time := addDays r.due_time 1 }
  | RecurrenceType.weekly => some { r with due_time := addDays r.due_time 7 }
  | RecurrenceType.monthly =>
    let new_month := r.due_time.month % 12 + 1
    let new_year := r.due_time.year + (if new_month = 1 then 1 else 0)
    match days_in_month new_month new_year with
    | Option.none => Option.none
    | some dim =>
      match with_ymd_and_hms new_year new_month (min r.due_time.day dim)
          r.due_time.hour r.due_time.minute r.due_time.second with
      | Option.none => Option.none
      | some dt => some { r with due_time := dt }
  | RecurrenceType.yearly =>
    match with_ymd_and_hms (r.due_time.year + 1) r.due_time.month r.due_time.day
        r.due_time.hour r.due_time.minute r.due_time.second with
    | Option.none => Option.none
    | some dt => some { r with due_time := dt }
  | RecurrenceType.custom _ => some r

/-! ### Spec-side definitions (from the specification's words, for comparison) -/

/-- Spec-side leap test, the words of spec §4.1:
`(year % 4 == 0 && year % 100 != 0) || year % 400 == 0`. -/
def spec_is_leap (y : Int) : Bool :=
  (y % 4 == 0 && y % 100 != 0) || y % 400 == 0

/-- Spec-side month-length table, the words of spec §4.1: standard
31/30/28-or-29 table with the stated leap test. -/
def spec_days_in_month (m : Nat) (y : Int) : Nat :=
  if m = 2 then (if spec_is_leap y then 29 else 28)
  else if m = 4 ∨ m = 6 ∨ m = 9 ∨ m = 11 then 30
  else 31

/-- Spec-side monthly reschedule target, the words of spec §4.1: advance to
the next calendar month, clamping the day-of-month to
`min(original day, days_in(target month, target year))`; year increments when
rolling past December; time-of-day preserved exactly. -/
def spec_monthly_target (t : DateTime) : DateTime :=
  let ty := if t.month = 12 then t.year + 1 else t.year
  let tm := if t.month = 12 then 1 else t.month + 1
  { t with year := ty, month := tm, day := min t.day (spec_days_in_month tm ty) }

/-! ### CLI parsing (`src/remindme/src/cli.rs`) -/

/-- A parsed `HH:MM` wall-clock time (`chrono::NaiveTime` restricted to the
fields `%H:%M` produces). -/
structure TimeOfDay where
  hour : Nat
  minute : Nat
  deriving Repr, DecidableEq

/-- A parsed `YYYY-MM-DD` civil date (`chrono::NaiveDate`). -/
structure Date where
  year : Int
  month : Nat
  day : Nat
  deriving Repr, DecidableEq

/-- Spec-side "today's date at the given time" of spec §4.3 step 3. -/
def today_at (now : DateTime) (t : TimeOfDay) : DateTime :=
  ⟨now.year, now.month, now.day, t.hour, t.minute, 0⟩

/-- Spec-side "tomorrow at the given time" of spec §4.3 step 3: the calendar
day after today, at the given time. -/
def tomorrow_at (now : DateTime) (t : TimeOfDay) : DateTime :=
  nextDay (today_at now t)

/-- From `cli.rs` `parse_datetime` (lines 102-111), on an already-split
date and time: `NaiveDateTime::parse_from_str` succeeds exactly on valid
civil datetimes, then `from_local_datetime(..).single()` is modelled as
always `Single` (no DST in the model). -/
def parse_datetime (d : Date) (t : TimeOfDay) : Except String DateTime :=
  match with_ymd_and_hms d.year d.month d.day t.hour t.minute 0 with
  | some dt => Except.ok dt
  | Option.none => Except.error "Invalid date time format. Expected YYYY-MM-DD HH:MM"

/-- From `cli.rs` `parse_datetime_with_default_date` (lines 113-143), with the
time and optional date already structurally parsed; the `%H:%M` parse failure
is the invalid-`TimeOfDay` case. -/
def parse_datetime_with_default_date (t : TimeOfDay) (dateOpt : Option Date)
    (now : DateTime) : Except String DateTime :=
  if t.hour < 24 ∧ t.minute < 60 then
    match dateOpt with
    | some d => parse_datetime d t
    | Option.none =>
      let cand : DateTime := ⟨now.year, now.month, now.day, t.hour, t.minute, 0⟩
      Except.ok (if cand.toSecs < now.toSecs then nextDay cand else cand)
  else Except.error "Invalid time format. Expected HH:MM"

/-- Split a character list at every occurrence of `c`, helper for the
canonical string parsers. -/
def splitChar (c : Char) : List Char → List (List Char)
  | [] => [[]]
  | x :: xs =>
    if x = c then [] :: splitChar c xs
    else
      match splitChar c xs with
      | h :: t => (x :: h) :: t
      | [] => [[x]]

/-- ASCII lowercasing, the model of Rust `str::to_lowercase` on the ASCII
inputs this program handles. -/
def strToLower (s : String) : String := ⟨s.data.map Char.toLower⟩

/-- Two ASCII digits to a number, helper for the canonical string parsers. -/
def parse2digit (l : List Char) : Option Nat :=
  match l with
  | [c1, c2] =>
    if c1.isDigit && c2.isDigit then
      some ((c1.toNat - 48) * 10 + (c2.toNat - 48))
    else Option.none
  | _ => Option.none

/-- Four ASCII digits to a number, helper for the canonical string parsers. -/
def parse4digit (l : List Char) : Option Nat :=
  match l with
  | [c1, c2, c3, c4] =>
    if c1.isDigit && c2.isDigit && c3.isDigit && c4.isDigit then
      some (((c1.toNat - 48) * 10 + (c2.toNat - 48)) * 100
        + (c3.toNat - 48) * 10 + (c4.toNat - 48))
    else Option.none
  | _ => Option.none

/-- Model of `NaiveTime::parse_from_str(.., "%H:%M")` on canonical
zero-padded `HH:MM` character lists. -/
def parse_timeL (l : List Char) : Option TimeOfDay :=
  match splitChar ':' l with
  | [hs, ms] => do
    let h ← parse2digit hs
    let m ← parse2digit ms
    if h < 24 ∧ m < 60 then some ⟨h, m⟩ else Option.none
  | _ => Option.none

/-- Model of the `%Y-%m-%d` parse on canonical zero-padded `YYYY-MM-DD`
character lists; `NaiveDate` parsing rejects non-existent civil dates. -/
def parse_dateL (l : List Char) : Option Date :=
  match splitChar '-' l with
  | [ys, ms, ds] => do
    let y ← parse4digit ys
    let m ← parse2digit ms
    let d ← parse2digit ds
    if 1 ≤ m ∧ m ≤ 12 ∧ 1 ≤ d ∧ d ≤ (days_in_month m (y : Int)).getD 0 then
      some ⟨(y : Int), m, d⟩
    else Option.none
  | _ => Option.none

/-- `%H:%M` parsing on the string buffer. -/
def parse_time_str (s : String) : Option TimeOfDay := parse_timeL s.data

/-- `%Y-%m-%d` parsing on the string buffer. -/
def parse_date_str (s : String) : Option Date := parse_dateL s.data

/-- `cli.rs` `parse_datetime` on its actual string input
(`"YYYY-MM-DD HH:MM"`), delegating to the structural version. -/
def parse_datetime_str (s : String) : Except String DateTime :=
  match splitChar ' ' s.data with
  | [ds, ts] =>
    match parse_dateL ds, parse_timeL ts with
    | some d, some t => parse_datetime d t
    | _, _ => Except.error "Invalid date time format. Expected YYYY-MM-DD HH:MM"
  | _ => Except.error "Invalid date time format. Expected YYYY-MM-DD HH:MM"

/-- `cli.rs` `parse_datetime_with_default_date` on its actual string inputs,
delegating to the structural version. -/
def parse_datetime_with_default_date_str (timeS : String) (dateOpt : Option String)
    (now : DateTime) : Except String DateTime :=
  match parse_time_str timeS with
  | Option.none => Except.error "Invalid time format. Expected HH:MM"
  | some t =>
    match dateOpt with
    | some ds =>
      match parse_date_str ds with
      | some d => parse_datetime d t
      | Option.none => Except.error "Invalid date time format. Expected YYYY-MM-DD HH:MM"
    | Option.none => parse_datetime_with_default_date t Option.none now

/-- From `src/remindme/src/cli.rs` `parse_recurrence` (lines 145-154): strict,
rejects anything outside the five keywords. -/
def parse_recurrence (s : String) : Except String RecurrenceType :=
  match strToLower s with
  | "none" => Except.ok RecurrenceType.none
  | "daily" => Except.ok RecurrenceType.daily
  | "weekly" => Except.ok RecurrenceType.weekly
  | "monthly" => Except.ok RecurrenceType.monthly
  | "yearly" => Except.ok RecurrenceType.yearly
  | _ => Except.error "Invalid recurrence type. Valid options are: none, daily, weekly, monthly, yearly"

/-- From `src/remind_rs/src/cli.rs` `parse_recurrence` (lines 105-114):
permissive, any other string becomes `Custom` of its lowercasing. -/
def RemindRs.parse_recurrence (s : String) : Except String RecurrenceType :=
  match strToLower s with
  | "none" => Except.ok RecurrenceType.none
  | "daily" => Except.ok RecurrenceType.daily
  | "weekly" => Except.ok RecurrenceType.weekly
  | "monthly" => Except.ok RecurrenceType.monthly
  | "yearly" => Except.ok RecurrenceType.yearly
  | custom => Except.ok (RecurrenceType.custom custom)

/-! ### Storage (`src/remindme/src/storage.rs`)

The flat-file store is modelled as the list it holds; load/save I/O failures
are oracles at the call sites that need them. -/

/-- From `storage.rs` `Storage::update_reminder` (lines 83-99): replace the
first entry with matching id (`iter_mut().any` short-circuits), returning the
new contents and the `found` flag. -/
def Storage.update_reminder : List Reminder → Reminder → List Reminder × Bool
  | [], _ => ([], false)
  | r :: rest, u =>
    if r.id = u.id then (u :: rest, true)
    else
      let p := Storage.update_reminder rest u
      (r :: p.1, p.2)

/-- From `storage.rs` `Storage::add_reminder` (lines 63-68): load, push,
save. -/
def Storage.add_reminder (stored : List Reminder) (r : Reminder) : List Reminder :=
  stored ++ [r]

/-- From `storage.rs` `Storage::get_reminder_by_id` (lines 101-104): first
entry with matching id. -/
def Storage.get_reminder_by_id (stored : List Reminder) (id : String) : Option Reminder :=
  stored.find? (fun r => r.id = id)

/-! ### Due scan (`src/remindme/src/notification.rs`) -/

/-- Failure modes of the due scan; `panicked` stands for the Rust panics
inside `mark_notified`. -/
inductive ScanErr where
  | loadFailed
  | desktopFailed
  | saveFailed
  | panicked
  deriving Repr, DecidableEq

/-- From `notification.rs` `Notifier::send_desktop_notification`
(lines 41-60): `Notification::show()?` propagates failure (`show_ok` oracle);
a `play_notification_sound` failure is only printed and swallowed
(`sound_ok` oracle, no effect on the result). -/
def send_desktop_notification (show_ok : Bool) (_sound_ok : Bool) : Except ScanErr Unit :=
  if show_ok then Except.ok () else Except.error ScanErr.desktopFailed

/-- Loop body of `Notifier::check_due_reminders` (lines 20-36) over the loaded
collection: for each due entry, push its pre-mutation clone, optionally send
the desktop notification (propagating failure with `?`), then `mark_notified`
and persist via `update_reminder` (whose save failure, oracle `save_ok`, also
propagates).  Returns the final collection and the due list. -/
def scan_reminders (now : DateTime) (send_desktop : Bool)
    (show_ok sound_ok : Reminder → Bool) (save_ok : Reminder → Bool) :
    List Reminder → Except ScanErr (List Reminder × List Reminder)
  | [] => Except.ok ([], [])
  | r :: rest =>
    if r.is_due now then
      match (if send_desktop then send_desktop_notification (show_ok r) (sound_ok r)
             else Except.ok ()) with
      | Except.error e => Except.error e
      | Except.ok _ =>
        match r.mark_notified now with
        | Option.none => Except.error ScanErr.panicked
        | some r' =>
          if save_ok r' then
            match scan_reminders now send_desktop show_ok sound_ok save_ok rest with
            | Except.error e => Except.error e
            | Except.ok (l, due) => Except.ok (r' :: l, r :: due)
          else Except.error ScanErr.saveFailed
    else
      match scan_reminders now send_desktop show_ok sound_ok save_ok rest with
      | Except.error e => Except.error e
      | Except.ok (l, due) => Except.ok (r :: l, due)

/-- From `notification.rs` `Notifier::check_due_reminders` (lines 16-39):
`storage.load()?` (`Option.none` models the load failure) then the scan
loop; the source returns only the due list, the final collection is kept for
the statements about persistence. -/
def check_due_reminders (now : DateTime) (send_desktop : Bool)
    (show_ok sound_ok save_ok : Reminder → Bool)
    (load_result : Option (List Reminder)) :
    Except ScanErr (List Reminder × List Reminder) :=
  match load_result with
  | Option.none => Except.error ScanErr.loadFailed
  | some rs => scan_reminders now send_desktop show_ok sound_ok save_ok rs

/-! ### Interactive editor (`src/remindme/src/tui.rs`) -/

/-- From `tui.rs` lines 21-25. -/
inductive InputMode where
  | Normal
  | Editing
  deriving Repr, DecidableEq

/-- From `tui.rs` lines 27-33. -/
inductive CurrentView where
  | List
  | Add
  | Edit
  | Help
  deriving Repr, DecidableEq

/-- From `tui.rs` lines 36-43. -/
inductive ActiveField where
  | Text
  | Time
  | Date
  | Recurrence
  | Submit
  deriving Repr, DecidableEq

/-- From `tui.rs` `struct App` (lines 45-60); `storage` lives outside as the
stored list threaded through the commit functions. -/
structure App where
  reminders : List Reminder
  current_view : CurrentView
  input_mode : InputMode
  input : String
  selected_index : Nat
  new_reminder_text : String
  new_reminder_time : String
  new_reminder_date : String
  new_reminder_recurrence : String
  editing_reminder_id : Option String
  active_field : ActiveField
  error_message : Option String
  deriving Repr, DecidableEq

/-- Modelled from the spec: `Reminder::new_with_id` lives in the remindme
crate's reminder module, which is not under `src/`.  Its call site in
`App::update_reminder` passes only the id, text, due time and recurrence, so,
like `Reminder::new` (spec §3: `created_at` is "set once at creation"), it is
a constructor stamping the construction time as `created_at`, with
`last_notified` unset and `completed` false — the original entity's
`created_at` is not among its inputs. -/
def Reminder.new_with_id (id : String) (now : DateTime) (text : String)
    (due_time : DateTime) (recurrence : RecurrenceType) : Reminder :=
  { id := id, text := text, due_time := due_time, recurrence := recurrence
    created_at := now, last_notified := Option.none, completed := false }

/-- From `tui.rs` `App::create_reminder` (lines 95-153); `Local::now()` and
the fresh UUID are the parameters `now` and `freshId`, and the stored list is
threaded explicitly (`add_reminder` then `refresh_reminders`). -/
def App.create_reminder (now : DateTime) (freshId : String) (a : App)
    (stored : List Reminder) : App × List Reminder :=
  if a.new_reminder_text.isEmpty then
    ({ a with error_message := some "Reminder text cannot be empty" }, stored)
  else if a.new_reminder_time.isEmpty then
    ({ a with error_message := some "Time must be specified (HH:MM)" }, stored)
  else
    let dateOpt := if a.new_reminder_date.isEmpty then Option.none
                   else some a.new_reminder_date
    match parse_datetime_with_default_date_str a.new_reminder_time dateOpt now with
    | Except.error e => ({ a with error_message := some ("Invalid date/time: " ++ e) }, stored)
    | Except.ok due_time =>
      match parse_recurrence a.new_reminder_recurrence with
      | Except.error e =>
        ({ a with error_message := some ("Invalid recurrence: " ++ e) }, stored)
      | Except.ok recurrence_type =>
        let r := Reminder.new freshId now a.new_reminder_text due_time recurrence_type
        let stored' := Storage.add_reminder stored r
        ({ a with
            new_reminder_text := ""
            new_reminder_time := ""
            new_reminder_date := ""
            new_reminder_recurrence := "none"
            error_message := Option.none
            current_view := CurrentView.List
            input_mode := InputMode.Normal
            reminders := stored' }, stored')

/-- From `tui.rs` `App::update_reminder` (lines 155-217); same conventions as
`App.create_reminder`, building the replacement with `Reminder::new_with_id`
and persisting through `Storage.update_reminder`. -/
def App.update_reminder (now : DateTime) (a : App)
    (stored : List Reminder) : App × List Reminder :=
  if a.new_reminder_text.isEmpty then
    ({ a with error_message := some "Reminder text cannot be empty" }, stored)
  else if a.new_reminder_time.isEmpty then
    ({ a with error_message := some "Time must be specified (HH:MM)" }, stored)
  else
    let dateOpt := if a.new_reminder_date.isEmpty then Option.none
                   else some a.new_reminder_date
    match parse_datetime_with_default_date_str a.new_reminder_time dateOpt now with
    | Except.error e => ({ a with error_message := some ("Invalid date/time: " ++ e) }, stored)
    | Except.ok due_time =>
      match parse_recurrence a.new_reminder_recurrence with
      | Except.error e =>
        ({ a with error_message := some ("Invalid recurrence: " ++ e) }, stored)
      | Except.ok recurrence_type =>
        match a.editing_reminder_id with
        | Option.none => (a, stored)
        | some id =>
          let updated := Reminder.new_with_id id now a.new_reminder_text
            due_time recurrence_type
          let stored' := (Storage.update_reminder stored updated).1
          ({ a with
              new_reminder_text := ""
              new_reminder_time := ""
              new_reminder_date := ""
              new_reminder_recurrence := "none"
              editing_reminder_id := Option.none
              error_message := Option.none
              current_view := CurrentView.List
              input_mode := InputMode.Normal
              reminders := stored' }, stored')

/-- From `tui.rs` `run_app`, the `Normal`-mode `'a'` arm (lines 298-303). -/
def onKeyA (a : App) : App :=
  { a with
      current_view := CurrentView.Add
      input_mode := InputMode.Editing
      active_field := ActiveField.Text
      error_message := Option.none }

/-- From `tui.rs` `run_app`, the `Editing`-mode `Esc` arm (lines 340-344). -/
def onEsc (a : App) : App :=
  { a with
      input_mode := InputMode.Normal
      current_view := CurrentView.List
      error_message := Option.none }

/-- From `tui.rs` `run_app`, the `Editing`-mode `Tab` arm (lines 368-385):
forward field cycling, only in the `Add` view, initialising the recurrence
buffer when landing on it empty. -/
def onTab (a : App) : App :=
  if a.current_view = CurrentView.Add then
    match a.active_field with
    | ActiveField.Text => { a with active_field := ActiveField.Time }
    | ActiveField.Time => { a with active_field := ActiveField.Date }
    | ActiveField.Date =>
      { a with
          active_field := ActiveField.Recurrence
          new_reminder_recurrence :=
            if a.new_reminder_recurrence.isEmpty then "none"
            else a.new_reminder_recurrence }
    | ActiveField.Recurrence => { a with active_field := ActiveField.Submit }
    | ActiveField.Submit => { a with active_field := ActiveField.Text }
  else a

/-- From `tui.rs` `run_app`, the `Editing`-mode `BackTab` arm (lines 386-396):
backward field cycling, only in the `Add` view. -/
def onBackTab (a : App) : App :=
  if a.current_view = CurrentView.Add then
    match a.active_field with
    | ActiveField.Text => { a with active_field := ActiveField.Submit }
    | ActiveField.Time => { a with active_field := ActiveField.Text }
    | ActiveField.Date => { a with active_field := ActiveField.Time }
    | ActiveField.Recurrence => { a with active_field := ActiveField.Date }
    | ActiveField.Submit => { a with active_field := ActiveField.Recurrence }
  else a

/-! ### CLI `Edit` command (`src/remindme/src/main.rs` lines 111-132) -/

/-- From `main.rs` `run`, the `Commands::Edit` arm: fetch by id, overwrite the
supplied fields in place on the fetched entity, persist through
`Storage::update_reminder`; an absent id leaves the store untouched. -/
def run_edit (stored : List Reminder) (id : String) (newText : Option String)
    (newTime : Option String) (newRec : Option String) :
    Except String (List Reminder) :=
  match Storage.get_reminder_by_id stored id with
  | Option.none => Except.ok stored
  | some r0 =>
    let r1 := match newText with
      | some t => { r0 with text := t }
      | Option.none => r0
    match (match newTime with
           | Option.none => Except.ok r1
           | some ts =>
             match parse_datetime_str ts with
             | Except.ok dt => Except.ok { r1 with due_time := dt }
             | Except.error e => Except.error e) with
    | Except.error e => Except.error e
    | Except.ok r2 =>
      match (match newRec with
             | Option.none => Except.ok r2
             | some rs =>
               match parse_recurrence rs with
               | Except.ok rc => Except.ok { r2 with recurrence := rc }
               | Except.error e => Except.error e) with
      | Except.error e => Except.error e
      | Except.ok r3 => Except.ok (Storage.update_reminder stored r3).1

/-! ### Concrete fixtures used by the examples and counterexamples -/

/-- Monthly reminder due 2025-01-31 09:00 (spec §8's rollover example). -/
def exampleMonthly2025 : Reminder :=
  ⟨"m25", "Pay rent", ⟨2025, 1, 31, 9, 0, 0⟩, RecurrenceType.monthly,
    ⟨2025, 1, 1, 0, 0, 0⟩, Option.none, false⟩

/-- Monthly reminder due 2024-01-31 09:00 (spec §8's leap-year example). -/
def exampleMonthly2024 : Reminder :=
  ⟨"m24", "Pay rent", ⟨2024, 1, 31, 9, 0, 0⟩, RecurrenceType.monthly,
    ⟨2024, 1, 1, 0, 0, 0⟩, Option.none, false⟩

/-- Non-recurring reminder. -/
def exampleOnce : Reminder :=
  ⟨"n1", "once", ⟨2025, 1, 1, 9, 0, 0⟩, RecurrenceType.none,
    ⟨2025, 1, 1, 0, 0, 0⟩, Option.none, false⟩

/-- Yearly reminder due on February 29 of a leap year. -/
def exampleYearlyFeb29 : Reminder :=
  ⟨"y1", "leap", ⟨2024, 2, 29, 9, 0, 0⟩, RecurrenceType.yearly,
    ⟨2024, 1, 1, 0, 0, 0⟩, Option.none, false⟩

/-- A reminder that is due at `nowScan`. -/
def dueReminder : Reminder :=
  ⟨"d1", "due", ⟨2025, 6, 15, 9, 0, 0⟩, RecurrenceType.daily,
    ⟨2025, 6, 1, 0, 0, 0⟩, Option.none, false⟩

def dt0 : DateTime := ⟨2025, 1, 2, 9, 0, 0⟩

def dt1 : DateTime := ⟨2025, 1, 3, 9, 0, 0⟩

def nowScan : DateTime := ⟨2025, 6, 15, 14, 0, 0⟩

/-- The initial editor state of `App::new` (tui.rs lines 63-81). -/
def baseApp : App :=
  { reminders := [], current_view := CurrentView.List, input_mode := InputMode.Normal
    input := "", selected_index := 0, new_reminder_text := "", new_reminder_time := ""
    new_reminder_date := "", new_reminder_recurrence := "none"
    editing_reminder_id := Option.none, active_field := ActiveField.Text
    error_message := Option.none }

/-- Add-form state with all buffers populated. -/
def dirtyApp : App :=
  { baseApp with
      current_view := CurrentView.Add, input_mode := InputMode.Editing
      new_reminder_text := "x", new_reminder_time := "09:00"
      new_reminder_date := "2025-01-01", new_reminder_recurrence := "daily" }

/-- Add-form state carrying an unrecognized recurrence buffer. -/
def recApp : App :=
  { baseApp with
      current_view := CurrentView.Add, input_mode := InputMode.Editing
      new_reminder_text := "x", new_reminder_time := "09:00"
      new_reminder_date := "", new_reminder_recurrence := "foobar" }

def origReminder : Reminder :=
  ⟨"id1", "old", ⟨2025, 5, 1, 10, 0, 0⟩, RecurrenceType.daily,
    ⟨2025, 4, 1, 8, 0, 0⟩, Option.none, false⟩

/-- Edit-form state over `origReminder`, ready to commit. -/
def editApp : App :=
  { baseApp with
      current_view := CurrentView.Edit, input_mode := InputMode.Editing
      reminders := [origReminder], new_reminder_text := "new"
      new_reminder_time := "09:00", new_reminder_date := "2025-06-01"
      new_reminder_recurrence := "weekly", editing_reminder_id := some "id1"
      active_field := ActiveField.Submit }

def editNow : DateTime := ⟨2025, 5, 20, 12, 0, 0⟩

def nowFix : DateTime := ⟨2025, 6, 15, 14, 0, 0⟩

/-! ### Helper lemmas -/

theorem with_ymd_eq_some (y : Int) (m d hh mi s : Nat)
    (h : validDate y m d hh mi s) :
    with_ymd_and_hms y m d hh mi s = some ⟨y, m, d, hh, mi, s⟩ := by
  unfold with_ymd_and_hms
  exact if_pos h

theorem days_in_month_eq_spec (m : Nat) (y : Int) (h1 : 1 ≤ m) (h2 : m ≤ 12) :
    days_in_month m y = some (spec_days_in_month m y) := by
  interval_cases m <;> simp [days_in_month, spec_days_in_month, spec_is_leap]

theorem spec_days_in_month_pos (m : Nat) (y : Int) : 1 ≤ spec_days_in_month m y := by
  unfold spec_days_in_month
  split
  · split <;> omega
  · split <;> omega

/-! ### Claims -/

/-- C1: `is_due(now)` returns true iff `due_time <= now`, the reminder is not
completed, and either `last_notified` is unset, or the recurrence is not
`None` and the whole-hour difference `now - last_notified` is at least 24
hours; in particular a `None`-recurrence reminder with `last_notified` set is
never due again. -/
theorem is_due_characterization (r : Reminder) (now : DateTime) :
    (r.is_due now = true ↔
      (r.due_time.toSecs ≤ now.toSecs ∧ r.completed = false ∧
        (r.last_notified = Option.none ∨
          (r.recurrence ≠ RecurrenceType.none ∧
            ∃ last, r.last_notified = some last ∧
              24 ≤ (now.toSecs - last.toSecs).tdiv 3600)))) ∧
    (∀ last, r.recurrence = RecurrenceType.none → r.last_notified = some last →
      r.is_due now = false) := by
  obtain ⟨rid, rtext, due, rec, rcr, rln, rcp⟩ := r
  cases rln <;> cases rec <;> cases rcp <;>
    simp [Reminder.is_due]

/-- C2: for a `Monthly` reminder with a valid due time, `mark_notified`
advances `due_time` to the next calendar month, clamping the day to
`min(original day, days_in(target month, target year))`, incrementing the
year when rolling past December and preserving the time of day; due
2025-01-31 09:00 becomes 2025-02-28 09:00, due 2024-01-31 09:00 becomes
2024-02-29 09:00, and `days_in_month` realises the 31/30/28-or-29 table with
the leap test `(y % 4 == 0 && y % 100 != 0) || y % 400 == 0`. -/
theorem monthly_reschedule (r : Reminder) (now : DateTime)
    (hrec : r.recurrence = RecurrenceType.monthly) (hv : r.due_time.Valid) :
    (r.mark_notified now =
      some { r with last_notified := some now
                    due_time := spec_monthly_target r.due_time }) ∧
    ((exampleMonthly2025.mark_notified now).map (fun x => x.due_time) =
      some ⟨2025, 2, 28, 9, 0, 0⟩) ∧
    ((exampleMonthly2024.mark_notified now).map (fun x => x.due_time) =
      some ⟨2024, 2, 29, 9, 0, 0⟩) ∧
    (∀ m y, 1 ≤ m → m ≤ 12 → days_in_month m y = some (spec_days_in_month m y)) := by
  refine ⟨?_, rfl, rfl, fun m y hm1 hm2 => days_in_month_eq_spec m y hm1 hm2⟩
  obtain ⟨rid, rtext, due, rec, rcr, rln, rcp⟩ := r
  obtain ⟨y, m, d, hh, mi, s⟩ := due
  replace hv : validDate y m d hh mi s := hv
  obtain ⟨h1, h2, h3, h4, h5, h6, h7⟩ := hv
  simp only at hrec
  subst hrec
  by_cases hm : m = 12
  · subst hm
    have hval : validDate (y + 1) 1 (min d (spec_days_in_month 1 (y + 1))) hh mi s := by
      refine ⟨by omega, by omega,
        Nat.le_min.mpr ⟨h3, spec_days_in_month_pos 1 (y + 1)⟩, ?_, h5, h6, h7⟩
      rw [days_in_month_eq_spec 1 (y + 1) (by omega) (by omega)]
      exact Nat.min_le_right _ _
    simp only [Reminder.mark_notified]
    norm_num
    simp only [days_in_month_eq_spec 1 (y + 1) (by omega) (by omega),
      with_ymd_eq_some (y + 1) 1 (min d (spec_days_in_month 1 (y + 1))) hh mi s hval]
    simp [spec_monthly_target]
  · have hmod : m % 12 = m := Nat.mod_eq_of_lt (by omega)
    have hne1 : ¬(m + 1 = 1) := by omega
    have hval : validDate y (m + 1) (min d (spec_days_in_month (m + 1) y)) hh mi s := by
      refine ⟨by omega, by omega,
        Nat.le_min.mpr ⟨h3, spec_days_in_month_pos (m + 1) y⟩, ?_, h5, h6, h7⟩
      rw [days_in_month_eq_spec (m + 1) y (by omega) (by omega)]
      exact Nat.min_le_right _ _
    simp only [Reminder.mark_notified, hmod, if_neg hne1, add_zero]
    simp only [days_in_month_eq_spec (m + 1) y (by omega) (by omega),
      with_ymd_eq_some y (m + 1) (min d (spec_days_in_month (m + 1) y)) hh mi s hval]
    simp [spec_monthly_target, hm]

/-- C2 witness: the theorem applied to the 2025-01-31 09:00 monthly fixture. -/
theorem monthly_reschedule_witness :
    exampleMonthly2025.recurrence = RecurrenceType.monthly ∧
    exampleMonthly2025.due_time.Valid ∧
    (exampleMonthly2025.mark_notified dt0 =
      some { exampleMonthly2025 with
               last_notified := some dt0
               due_time := spec_monthly_target exampleMonthly2025.due_time }) :=
  ⟨by decide, by decide,
    (monthly_reschedule exampleMonthly2025 dt0 (by decide) (by decide)).1⟩

/-- C4 counterexample: the claim that a second `mark_notified` call changes no
field is false — marking a `None`-recurrence reminder at `dt0` and again at
`dt1` is not a no-op, because the second call moves `last_notified` to
`dt1`. -/
theorem mark_twice_not_noop :
    ((exampleOnce.mark_notified dt0).bind (fun r1 => r1.mark_notified dt1) ≠
      exampleOnce.mark_notified dt0) ∧
    ((exampleOnce.mark_notified dt0).bind (fun r1 => r1.mark_notified dt1)).map
      Reminder.last_notified = some (some dt1) := by
  decide

/-- C4 (amended): marking a `None`-recurrence reminder sets `completed = true`
with `due_time` (and every field but `last_notified`) unchanged, and a second
call changes nothing except moving `last_notified` to the new call time. -/
theorem mark_notified_none_terminal (r : Reminder) (t1 t2 : DateTime)
    (h : r.recurrence = RecurrenceType.none) :
    ∃ r1, r.mark_notified t1 = some r1 ∧ r1.completed = true ∧
      r1.due_time = r.due_time ∧ r1.text = r.text ∧ r1.id = r.id ∧
      r1.created_at = r.created_at ∧ r1.recurrence = r.recurrence ∧
      r1.last_notified = some t1 ∧
      r1.mark_notified t2 = some { r1 with last_notified := some t2 } := by
  obtain ⟨rid, rtext, due, rec, rcr, rln, rcp⟩ := r
  simp only at h
  subst h
  exact ⟨_, rfl, rfl, rfl, rfl, rfl, rfl, rfl, rfl, rfl⟩

/-- C4 witness: the amended theorem applied to the non-recurring fixture. -/
theorem mark_notified_none_terminal_witness :
    exampleOnce.recurrence = RecurrenceType.none ∧
    (∃ r1, exampleOnce.mark_notified dt0 = some r1 ∧ r1.completed = true ∧
      r1.due_time = exampleOnce.due_time ∧ r1.text = exampleOnce.text ∧
      r1.id = exampleOnce.id ∧ r1.created_at = exampleOnce.created_at ∧
      r1.recurrence = exampleOnce.recurrence ∧ r1.last_notified = some dt0 ∧
      r1.mark_notified dt1 = some { r1 with last_notified := some dt1 }) :=
  ⟨by decide, mark_notified_none_terminal exampleOnce dt0 dt1 (by decide)⟩

/-- C10: for a `Yearly` reminder due on February 29 of a leap year,
`mark_notified` reaches the panicking branch — the `year + 1` date does not
exist, `with_ymd_and_hms(..).unwrap()` fails (modelled as `Option.none`), so
`mark_notified` is not total on `Yearly` reminders. -/
theorem yearly_feb29_panics :
    exampleYearlyFeb29.recurrence = RecurrenceType.yearly ∧
    exampleYearlyFeb29.due_time.Valid ∧
    exampleYearlyFeb29.due_time.month = 2 ∧ exampleYearlyFeb29.due_time.day = 29 ∧
    exampleYearlyFeb29.mark_notified ⟨2025, 3, 1, 0, 0, 0⟩ = Option.none := by
  decide

/-- C3 counterexample: in the due scan, a desktop-notification failure on a
due entity is fatal — with one due reminder and a failing desktop sink, the
scan aborts with the sink error (so that entity's `mark_notified`/persist
step never runs), contradicting "sink failures are never fatal and never skip
the mutation/persist step". -/
theorem scan_sink_failure_fatal :
    dueReminder.is_due nowScan = true ∧
    check_due_reminders nowScan true (fun _ => false) (fun _ => true)
      (fun _ => true) (some [dueReminder]) = Except.error ScanErr.desktopFailed :=
  ⟨by decide, rfl⟩

/-- C3 (amended): in the due scan, persistence load failures abort the scan,
and — when desktop notifications are requested — a desktop-sink failure on a
due entity is also fatal: the scan aborts with the sink error before that
entity's `mark_notified`/persist step; only a sound-playback failure inside
`send_desktop_notification` is swallowed. -/
theorem scan_failure_semantics (now : DateTime)
    (show_ok sound_ok save_ok : Reminder → Bool) (r : Reminder)
    (rest : List Reminder) (hdue : r.is_due now = true)
    (hfail : show_ok r = false) :
    scan_reminders now true show_ok sound_ok save_ok (r :: rest) =
      Except.error ScanErr.desktopFailed ∧
    check_due_reminders now true show_ok sound_ok save_ok Option.none =
      Except.error ScanErr.loadFailed ∧
    (∀ b, send_desktop_notification true b = Except.ok ()) := by
  refine ⟨?_, rfl, fun b => rfl⟩
  simp [scan_reminders, hdue, hfail, send_desktop_notification]

/-- C3 witness: the amended theorem applied to the due fixture with a failing
desktop sink. -/
theorem scan_failure_semantics_witness :
    dueReminder.is_due nowScan = true ∧
    (scan_reminders nowScan true (fun _ => false) (fun _ => true)
        (fun _ => true) [dueReminder] = Except.error ScanErr.desktopFailed ∧
      check_due_reminders nowScan true (fun _ => false) (fun _ => true)
        (fun _ => true) Option.none = Except.error ScanErr.loadFailed ∧
      (∀ b, send_desktop_notification true b = Except.ok ())) :=
  ⟨by decide,
    scan_failure_semantics nowScan (fun _ => false) (fun _ => true)
      (fun _ => true) dueReminder [] (by decide) rfl⟩

/-- C5: for a valid `HH:MM` time, a supplied date combines with the time into
the local `YYYY-MM-DD HH:MM` timestamp; with no date the result is today at
the given time when that instant has not yet passed relative to `now`, and
tomorrow at that time when it has; at local time 14:00, "10:00" yields
tomorrow 10:00 and "18:00" yields today 18:00. -/
theorem default_date_rule (t : TimeOfDay) (d : Date) (now : DateTime)
    (ht : t.hour < 24 ∧ t.minute < 60) :
    (validDate d.year d.month d.day t.hour t.minute 0 →
      parse_datetime_with_default_date t (some d) now =
        Except.ok ⟨d.year, d.month, d.day, t.hour, t.minute, 0⟩) ∧
    (parse_datetime_with_default_date t Option.none now =
      Except.ok (if (today_at now t).toSecs < now.toSecs then tomorrow_at now t
                 else today_at now t)) ∧
    (parse_datetime_with_default_date ⟨10, 0⟩ Option.none ⟨2025, 6, 15, 14, 0, 0⟩ =
      Except.ok ⟨2025, 6, 16, 10, 0, 0⟩) ∧
    (parse_datetime_with_default_date ⟨18, 0⟩ Option.none ⟨2025, 6, 15, 14, 0, 0⟩ =
      Except.ok ⟨2025, 6, 15, 18, 0, 0⟩) := by
  refine ⟨?_, ?_, rfl, rfl⟩
  · intro hd
    simp [parse_datetime_with_default_date, if_pos ht, parse_datetime,
      with_ymd_eq_some d.year d.month d.day t.hour t.minute 0 hd]
  · simp [parse_datetime_with_default_date, if_pos ht, today_at, tomorrow_at]

/-- C5 witness: the theorem applied at 14:00 with the requested time 10:00 and
with the date 2025-06-20 supplied. -/
theorem default_date_rule_witness :
    ((10 : Nat) < 24 ∧ (0 : Nat) < 60) ∧
    validDate 2025 6 20 10 0 0 ∧
    (validDate (2025 : Int) 6 20 10 0 0 →
      parse_datetime_with_default_date ⟨10, 0⟩ (some ⟨2025, 6, 20⟩) ⟨2025, 6, 15, 14, 0, 0⟩ =
        Except.ok ⟨2025, 6, 20, 10, 0, 0⟩) ∧
    (parse_datetime_with_default_date ⟨10, 0⟩ Option.none ⟨2025, 6, 15, 14, 0, 0⟩ =
      Except.ok (if (today_at ⟨2025, 6, 15, 14, 0, 0⟩ ⟨10, 0⟩).toSecs <
          (⟨2025, 6, 15, 14, 0, 0⟩ : DateTime).toSecs then
        tomorrow_at ⟨2025, 6, 15, 14, 0, 0⟩ ⟨10, 0⟩
      else today_at ⟨2025, 6, 15, 14, 0, 0⟩ ⟨10, 0⟩)) :=
  ⟨by decide, by decide,
    (default_date_rule ⟨10, 0⟩ ⟨2025, 6, 20⟩ ⟨2025, 6, 15, 14, 0, 0⟩ (by decide)).1,
    (default_date_rule ⟨10, 0⟩ ⟨2025, 6, 20⟩ ⟨2025, 6, 15, 14, 0, 0⟩ (by decide)).2.1⟩

/-- C6 counterexample: an unrecognized non-empty recurrence buffer is not
accepted as `Custom` by the interactive editor's commit — committing the Add
form with recurrence "foobar" stores nothing and sets the "Invalid
recurrence" error, because the editor calls the strict remindme
`parse_recurrence`. -/
theorem editor_rejects_unknown_recurrence :
    (App.create_reminder nowFix "uuid-1" recApp []).2 = [] ∧
    (App.create_reminder nowFix "uuid-1" recApp []).1.error_message =
      some "Invalid recurrence: Invalid recurrence type. Valid options are: none, daily, weekly, monthly, yearly" ∧
    parse_recurrence "foobar" =
      Except.error "Invalid recurrence type. Valid options are: none, daily, weekly, monthly, yearly" := by
  refine ⟨rfl, rfl, rfl⟩

/-- C6 (amended): the commit validation parses the recurrence buffer
case-insensitively against {none, daily, weekly, monthly, yearly}, but the
interactive editor rejects every unrecognized string with an "Invalid
recurrence" error and stores nothing; the permissive accept-as-`Custom`
behaviour lives in the remind_rs CLI parser, not in the editor. -/
theorem recurrence_vocabulary (s : String) (_hne : s ≠ "")
    (hunk : strToLower s ∉ (["none", "daily", "weekly", "monthly", "yearly"] : List String)) :
    parse_recurrence s =
      Except.error "Invalid recurrence type. Valid options are: none, daily, weekly, monthly, yearly" ∧
    RemindRs.parse_recurrence s = Except.ok (RecurrenceType.custom (strToLower s)) ∧
    (∀ now freshId a stored due_time,
      a.new_reminder_recurrence = s →
      a.new_reminder_text.isEmpty = false →
      a.new_reminder_time.isEmpty = false →
      parse_datetime_with_default_date_str a.new_reminder_time
        (if a.new_reminder_date.isEmpty then Option.none else some a.new_reminder_date)
        now = Except.ok due_time →
      App.create_reminder now freshId a stored =
        ({ a with error_message := some "Invalid recurrence: Invalid recurrence type. Valid options are: none, daily, weekly, monthly, yearly" }, stored)) := by
  simp only [List.mem_cons, List.not_mem_nil, or_false, not_or] at hunk
  obtain ⟨u1, u2, u3, u4, u5⟩ := hunk
  have hstrict : parse_recurrence s =
      Except.error "Invalid recurrence type. Valid options are: none, daily, weekly, monthly, yearly" := by
    unfold parse_recurrence
    split <;> simp_all
  refine ⟨hstrict, ?_, ?_⟩
  · unfold RemindRs.parse_recurrence
    split <;> simp_all
  · intro now freshId a stored due_time hrec htext htime hparse
    simp only [App.create_reminder, htext, htime, hrec, hstrict, hparse,
      Bool.false_eq_true, if_false]
    rfl

/-- C6 witness: the amended theorem applied to the buffer "foobar" and the
populated Add-form fixture. -/
theorem recurrence_vocabulary_witness :
    ("foobar" ≠ "" ∧
      strToLower "foobar" ∉ (["none", "daily", "weekly", "monthly", "yearly"] : List String)) ∧
    RemindRs.parse_recurrence "foobar" =
      Except.ok (RecurrenceType.custom (strToLower "foobar")) ∧
    App.create_reminder nowFix "uuid-1" recApp [] =
      ({ recApp with error_message := some "Invalid recurrence: Invalid recurrence type. Valid options are: none, daily, weekly, monthly, yearly" }, []) :=
  ⟨⟨by decide, by decide⟩,
    (recurrence_vocabulary "foobar" (by decide) (by decide)).2.1,
    (recurrence_vocabulary "foobar" (by decide) (by decide)).2.2
      nowFix "uuid-1" recApp [] ⟨2025, 6, 16, 9, 0, 0⟩ rfl rfl rfl rfl⟩

/-- C7: on the CLI `Edit` path the entity is fetched and mutated in place, so
a successful commit replaces text and due time while preserving the original
`id` and `created_at`; but the interactive editor's update path builds the
replacement with `Reminder::new_with_id`, which never receives the original
`created_at` and stamps the commit time instead — at this concrete commit the
stored entity keeps id "id1" but its `created_at` becomes the commit time,
violating the immutability invariant the claim states. -/
theorem edit_paths_created_at :
    ((App.update_reminder editNow editApp [origReminder]).2.map Reminder.id = ["id1"]) ∧
    ((App.update_reminder editNow editApp [origReminder]).2.map Reminder.created_at = [editNow]) ∧
    origReminder.created_at ≠ editNow ∧
    run_edit [origReminder] "id1" (some "new") (some "2025-06-01 09:00") Option.none =
      Except.ok [{ origReminder with text := "new", due_time := ⟨2025, 6, 1, 9, 0, 0⟩ }] :=
  ⟨by decide, by decide, by decide, rfl⟩

/-- C8 counterexample: in the Add form with the active field `Text`, four
consecutive backward-cycle actions land on `Time`, not `Recurrence` as the
claim states (`Recurrence` is reached after two). -/
theorem backward_cycle_lands_on_time :
    (onBackTab (onBackTab (onBackTab (onBackTab dirtyApp)))).active_field = ActiveField.Time ∧
    ActiveField.Time ≠ ActiveField.Recurrence ∧
    dirtyApp.input_mode = InputMode.Editing ∧ dirtyApp.current_view = CurrentView.Add ∧
    dirtyApp.active_field = ActiveField.Text := by
  decide

/-- C8 (amended): in the Add view in Editing mode, over the field order
[Text, Time, Date, Recurrence, Submit], five consecutive forward-cycle (Tab)
actions starting from `Text` return to `Text`, wrapping from `Submit` back to
`Text`; a backward-cycle (BackTab) action from `Text` wraps to `Submit`, and
four consecutive backward-cycle actions from `Text` land on `Time`
(`Recurrence` is reached after two). -/
theorem field_cycling (a : App) (_hmode : a.input_mode = InputMode.Editing)
    (hview : a.current_view = CurrentView.Add)
    (hf : a.active_field = ActiveField.Text) :
    (onTab (onTab (onTab (onTab (onTab a))))).active_field = ActiveField.Text ∧
    (onBackTab a).active_field = ActiveField.Submit ∧
    (onBackTab (onBackTab a)).active_field = ActiveField.Recurrence ∧
    (onBackTab (onBackTab (onBackTab (onBackTab a)))).active_field = ActiveField.Time := by
  simp [onTab, onBackTab, hview, hf]

/-- C8 witness: the amended theorem applied to the populated Add-form
fixture. -/
theorem field_cycling_witness :
    (dirtyApp.input_mode = InputMode.Editing ∧
      dirtyApp.current_view = CurrentView.Add ∧
      dirtyApp.active_field = ActiveField.Text) ∧
    ((onTab (onTab (onTab (onTab (onTab dirtyApp))))).active_field = ActiveField.Text ∧
      (onBackTab dirtyApp).active_field = ActiveField.Submit ∧
      (onBackTab (onBackTab dirtyApp)).active_field = ActiveField.Recurrence ∧
      (onBackTab (onBackTab (onBackTab (onBackTab dirtyApp)))).active_field = ActiveField.Time) :=
  ⟨⟨by decide, by decide, by decide⟩,
    field_cycling dirtyApp (by decide) (by decide) (by decide)⟩

/-- C9 counterexample: neither the `'a'` arm nor the `Esc` arm clears the
form buffers — on a state with populated buffers, the text buffer still holds
"x" after each of the two transitions, so "every field buffer is empty
afterward" is false. -/
theorem buffers_survive_key_a_and_esc :
    (onKeyA { dirtyApp with input_mode := InputMode.Normal }).new_reminder_text = "x" ∧
    (onEsc dirtyApp).new_reminder_text = "x" ∧
    ("x" : String) ≠ "" := by
  decide

/-- C9 (amended): `'a'` sets `view = Add`, `mode = Editing`,
`active_field = Text` and clears the error message; `Esc` sets
`mode = Normal`, `view = List` and clears the error message; in both cases
every form buffer is left unchanged (buffers are cleared only by a successful
commit, not by these transitions). -/
theorem key_a_and_esc_effects (a b : App) (_ha : a.input_mode = InputMode.Normal)
    (_hb : b.input_mode = InputMode.Editing) :
    (onKeyA a).current_view = CurrentView.Add ∧
    (onKeyA a).input_mode = InputMode.Editing ∧
    (onKeyA a).active_field = ActiveField.Text ∧
    (onKeyA a).error_message = Option.none ∧
    (onKeyA a).new_reminder_text = a.new_reminder_text ∧
    (onKeyA a).new_reminder_time = a.new_reminder_time ∧
    (onKeyA a).new_reminder_date = a.new_reminder_date ∧
    (onKeyA a).new_reminder_recurrence = a.new_reminder_recurrence ∧
    (onEsc b).input_mode = InputMode.Normal ∧
    (onEsc b).current_view = CurrentView.List ∧
    (onEsc b).error_message = Option.none ∧
    (onEsc b).new_reminder_text = b.new_reminder_text ∧
    (onEsc b).new_reminder_time = b.new_reminder_time ∧
    (onEsc b).new_reminder_date = b.new_reminder_date ∧
    (onEsc b).new_reminder_recurrence = b.new_reminder_recurrence := by
  simp [onKeyA, onEsc]

/-- C9 witness: the amended theorem applied to the populated fixtures. -/
theorem key_a_and_esc_effects_witness :
    ({ dirtyApp with input_mode := InputMode.Normal }.input_mode = InputMode.Normal ∧
      dirtyApp.input_mode = InputMode.Editing) ∧
    ((onKeyA { dirtyApp with input_mode := InputMode.Normal }).current_view = CurrentView.Add ∧
      (onKeyA { dirtyApp with input_mode := InputMode.Normal }).new_reminder_text =
        { dirtyApp with input_mode := InputMode.Normal }.new_reminder_text ∧
      (onEsc dirtyApp).new_reminder_text = dirtyApp.new_reminder_text) :=
  ⟨⟨by decide, by decide⟩,
    (key_a_and_esc_effects { dirtyApp with input_mode := InputMode.Normal } dirtyApp
        (by decide) (by decide)).1,
    (key_a_and_esc_effects { dirtyApp with input_mode := InputMode.Normal } dirtyApp
        (by decide) (by decide)).2.2.2.2.1,
    (key_a_and_esc_effects { dirtyApp with input_mode := InputMode.Normal } dirtyApp
        (by decide) (by decide)).2.2.2.2.2.2.2.2.2.2.2.1⟩
